import Mathlib

/-!
Shallow embedding of the AssetWise AI camera backend (`backend/server.js`)
and the frontend state machine (`src/App.tsx`).

External dependencies (the FAL.ai client, axios, the `qrcode` library and the
HTTP clock) are modelled as oracle inputs supplied to each request handler.
Machine-level byte buffers are `List Nat` with values below 256.
-/

/-! ## JSON values and HTTP responses

`res.json(obj)` in Express serializes `obj` with `JSON.stringify`, which drops
every property whose value is `undefined`.  Objects are association lists in
source order; a possibly-`undefined` property is an `Option Json` entry fed to
`jsObj`. -/

inductive Json where
  | str (s : String)
  | bool (b : Bool)
  | num (n : Int)
  | obj (fields : List (String × Json))

/-- Build a JSON object from properties whose values may be `undefined`
(`none`): models `JSON.stringify` dropping `undefined`-valued properties. -/
def jsObj (fs : List (String × Option Json)) : Json :=
  .obj (fs.filterMap (fun p => p.2.map (fun v => (p.1, v))))

/-- Field lookup in a JSON object (first occurrence). -/
def Json.lookup (j : Json) (key : String) : Option Json :=
  match j with
  | .obj fs =>
    match fs.find? (fun p => p.1 == key) with
    | some p => some p.2
    | none => none
  | _ => none

/-- An HTTP response body: either JSON (via `res.json`) or raw bytes
(via `res.send(buffer)`). -/
inductive ResBody where
  | json (j : Json)
  | bytes (bs : List Nat)

structure HttpResponse where
  status : Nat
  headers : List (String × String) := []
  body : ResBody

/-- Look a field up in a JSON response body. -/
def bodyLookup (r : HttpResponse) (key : String) : Option Json :=
  match r.body with
  | .json j => j.lookup key
  | .bytes _ => none

/-- Look a response header up by name. -/
def headerLookup (r : HttpResponse) (name : String) : Option String :=
  match r.headers.find? (fun p => p.1 == name) with
  | some p => some p.2
  | none => none

/-! ## JavaScript form-field values

A multipart text field reaches the handler as a string, or `undefined` when
absent; the boolean case keeps the `upscale === true` comparison from the
source expressible. -/

inductive JSVal where
  | str (s : String)
  | bool (b : Bool)
  | undefined
deriving DecidableEq

/-- JavaScript truthiness on the values above: the empty string, `false` and
`undefined` are falsy. -/
def jsTruthy : JSVal → Bool
  | .str s => !s.isEmpty
  | .bool b => b
  | .undefined => false

/-- JavaScript `a || b` restricted to these values. -/
def jsOr (a b : JSVal) : JSVal := if jsTruthy a then a else b

/-- JavaScript strict equality `===` on these values. -/
def jsStrictEq : JSVal → JSVal → Bool
  | .str x, .str y => x == y
  | .bool x, .bool y => x == y
  | .undefined, .undefined => true
  | _, _ => false

/-- JavaScript `s.trim()` (ASCII whitespace model). -/
def jsTrim (s : String) : String :=
  String.mk (((s.data.dropWhile Char.isWhitespace).reverse.dropWhile
    Char.isWhitespace).reverse)

/-- Does `sub` occur at the head of `s`? -/
def leadsWith : List Char → List Char → Bool
  | _, [] => true
  | [], _ :: _ => false
  | a :: as, b :: bs => a == b && leadsWith as bs

def hasSubAux : List Char → List Char → Bool
  | [], sub => sub.isEmpty
  | a :: t, sub => leadsWith (a :: t) sub || hasSubAux t sub

/-- JavaScript `s.includes(sub)`. -/
def jsIncludes (s sub : String) : Bool := hasSubAux s.data sub.data

/-! ## Base64 (Node `Buffer.toString('base64')` / `Buffer.from(str, 'base64')`)

Standard RFC 4648 alphabet with `=` padding; the decoder is specified on the
canonical padded output the encoder produces, which is the only input the
server ever decodes (store at face-swap time, decode at download time). -/

def base64Alphabet : List Char :=
  ['A','B','C','D','E','F','G','H','I','J','K','L','M',
   'N','O','P','Q','R','S','T','U','V','W','X','Y','Z',
   'a','b','c','d','e','f','g','h','i','j','k','l','m',
   'n','o','p','q','r','s','t','u','v','w','x','y','z',
   '0','1','2','3','4','5','6','7','8','9','+','/']

def sextetToChar (n : Nat) : Char := base64Alphabet.getD n 'A'

def charToSextet (c : Char) : Option Nat :=
  let i := base64Alphabet.indexOf c
  if i < 64 then some i else none

/-- Encode a byte list three bytes at a time into base64 characters. -/
def encodeChunks : List Nat → List Char
  | b1 :: b2 :: b3 :: rest =>
    sextetToChar (b1 / 4) ::
    sextetToChar ((b1 % 4) * 16 + b2 / 16) ::
    sextetToChar ((b2 % 16) * 4 + b3 / 64) ::
    sextetToChar (b3 % 64) :: encodeChunks rest
  | [b1, b2] =>
    [sextetToChar (b1 / 4), sextetToChar ((b1 % 4) * 16 + b2 / 16),
     sextetToChar ((b2 % 16) * 4), '=']
  | [b1] =>
    [sextetToChar (b1 / 4), sextetToChar ((b1 % 4) * 16), '=', '=']
  | [] => []

/-- Decode base64 characters four at a time; `=` padding closes the input. -/
def decodeChunks : List Char → List Nat
  | c1 :: c2 :: c3 :: c4 :: rest =>
    match charToSextet c1, charToSextet c2 with
    | some s1, some s2 =>
      if c3 == '=' then [s1 * 4 + s2 / 16]
      else
        match charToSextet c3 with
        | some s3 =>
          if c4 == '=' then [s1 * 4 + s2 / 16, (s2 % 16) * 16 + s3 / 4]
          else
            match charToSextet c4 with
            | some s4 =>
              (s1 * 4 + s2 / 16) :: ((s2 % 16) * 16 + s3 / 4) ::
              ((s3 % 4) * 64 + s4) :: decodeChunks rest
            | none => []
        | none => []
    | _, _ => []
  | _ => []

/-- `buffer.toString('base64')`. -/
def base64Encode (bs : List Nat) : String := String.mk (encodeChunks bs)

/-- `Buffer.from(s, 'base64')` on canonical input. -/
def base64Decode (s : String) : List Nat := decodeChunks s.data

/-! ## QR code library

Modelled external library call (`qrcode` package, not part of this
repository): `QRCode.toDataURL(text)` renders a QR image whose decoded
payload is exactly `text`.  The data URL is modelled as a tagged string so
the payload can be read back. -/

def qrToDataURL (text : String) : String := "data:image/png;qr," ++ text

/-- Decode the payload of a modelled QR data URL (the 18-character tag
`data:image/png;qr,` followed by the encoded text). -/
def qrPayloadOf (dataUrl : String) : Option String :=
  if dataUrl.data.take 18 = "data:image/png;qr,".data then
    some (String.mk (dataUrl.data.drop 18))
  else none

/-! ## Uploaded files and the in-memory image store -/

/-- A multer memory-storage file (`req.files` entry). -/
structure UploadedFile where
  fieldname : String
  originalname : String
  mimetype : String
  buffer : List Nat

/-- `file.size` as set by multer memory storage. -/
def UploadedFile.size (f : UploadedFile) : Nat := f.buffer.length

/-- `global.imageStore`: string keys mapping to base64-encoded image data. -/
abbrev Store := List (String × String)

def storeGet (store : Store) (k : String) : Option String :=
  match store.find? (fun kv => kv.1 == k) with
  | some kv => some kv.2
  | none => none

/-- `global.imageStore[k] = v` (key/value model of JS object assignment;
insertion order among distinct keys is not relied on by any handler). -/
def storeSet (store : Store) (k v : String) : Store :=
  (k, v) :: store.filter (fun kv => !(kv.1 == k))

/-! ## `POST /api/generate` -/

structure GenerateRequest where
  feature : Option String
  prompt : Option String
  files : List UploadedFile

/-- The input object handed to `fal.subscribe("fal-ai/flux-pro/kontext/max")`. -/
structure ModelInput where
  prompt : String
  image_url : String

/-- Oracle for the external effects of one `/api/generate` request:
the FAL call (an error message when it throws, otherwise the image URL the
`result.data?.images?.[0]?.url || ...` extraction chain finds, if any),
the axios download of the generated image, and the ISO timestamp of
`new Date()`. -/
structure GenerateWorld where
  fal : Except String (Option String)
  download : Except String (List Nat)
  now : String

structure GenerateOutcome where
  response : HttpResponse
  falCall : Option ModelInput

/-- Continuation of the `/api/generate` handler after input validation
(`fal.subscribe` through `res.json`, with the catch-all mapping every thrown
error to `500 {error, details}`). -/
def generateCore (modelInput : ModelInput) (feature : Option String)
    (w : GenerateWorld) : GenerateOutcome :=
  match w.fal with
  | .error msg =>
    ⟨{ status := 500,
       body := .json (.obj [("error", .str "Failed to process image"),
                            ("details", .str msg)]) }, some modelInput⟩
  | .ok none =>
    ⟨{ status := 500,
       body := .json (.obj [("error", .str "Failed to process image"),
                            ("details", .str "No generated image found in response")]) },
     some modelInput⟩
  | .ok (some generatedImageUrl) =>
    match w.download with
    | .error msg =>
      ⟨{ status := 500,
         body := .json (.obj [("error", .str "Failed to process image"),
                              ("details", .str msg)]) }, some modelInput⟩
    | .ok bytes =>
      let generatedImageDataUrl :=
        "data:image/jpeg;base64," ++ base64Encode bytes
      let qrCode := qrToDataURL generatedImageUrl
      ⟨{ status := 200,
         body := .json (jsObj
           [("success", some (.bool true)),
            ("generatedImage", some (.str generatedImageDataUrl)),
            ("publicImageUrl", some (.str generatedImageUrl)),
            ("qrCode", some (.str qrCode)),
            ("feature", feature.map Json.str),
            ("promptUsed", some (.str modelInput.prompt)),
            ("timestamp", some (.str w.now))]) }, some modelInput⟩

/-- The `/api/generate` handler (`backend/server.js` lines 129-176). -/
def generateHandler (req : GenerateRequest) (w : GenerateWorld) :
    GenerateOutcome :=
  match req.files.find? (fun f => f.fieldname == "image") with
  | none =>
    ⟨{ status := 400,
       body := .json (.obj [("error", .str "No main image provided")]) }, none⟩
  | some mainImageFile =>
    let imageBase64 := base64Encode mainImageFile.buffer
    if req.feature == some "custom" then
      if (jsTrim (req.prompt.getD "")).data.isEmpty then
        ⟨{ status := 400,
           body := .json (.obj [("error", .str "Custom prompt is required")]) },
         none⟩
      else
        generateCore
          { prompt := jsTrim (req.prompt.getD ""),
            image_url := "data:" ++ mainImageFile.mimetype ++ ";base64," ++ imageBase64 }
          req.feature w
    else
      generateCore
        { prompt := "Transform this portrait into a beautiful stylized artwork with enhanced colors, artistic lighting, and professional quality. Maintain the person\x27s facial features while applying artistic enhancement.",
          image_url := "data:" ++ mainImageFile.mimetype ++ ";base64," ++ imageBase64 }
        req.feature w

/-! ## `POST /api/face-swap` -/

structure FaceSwapRequest where
  gender_0 : JSVal
  workflow_type : JSVal
  upscale : JSVal
  files : List UploadedFile

/-- The input forwarded to `fal.subscribe("easel-ai/advanced-face-swap")`
(blob contents kept as raw bytes). -/
structure FalInput where
  face_image_0 : List Nat
  target_image : List Nat
  gender_0 : JSVal
  workflow_type : JSVal
  upscale : Bool

/-- A thrown FAL client error (`falError`). -/
structure FalError where
  status : Option Nat
  message : String
  bodyDetail : Option String

/-- An error thrown after the FAL call succeeded (axios download and later
steps), carrying the properties the catch-all inspects. -/
structure DownloadError where
  message : String
  code : Option String
  responseStatus : Option Nat

/-- Oracle for the external effects of one `/api/face-swap` request.
`nowMs` is `Date.now()` at store time, `rand` the random id suffix,
`urlBase` is the `req.protocol`/`host` part of the download URL, and `now`
the ISO timestamp of `new Date()`. -/
structure FaceSwapWorld where
  falKeyConfigured : Bool
  fal : Except FalError (Option String)
  download : Except DownloadError (List Nat)
  nowMs : Nat
  rand : String
  urlBase : String
  now : String

structure FaceSwapOutcome where
  response : HttpResponse
  falCall : Option FalInput
  store : Store

/-- `errorDetails` selection of the FAL-error branch (lines 270-284). -/
def falErrorDetails (e : FalError) : String :=
  if e.status == some 500 then
    "FAL.ai internal server error. This could be due to:\n• Invalid image format or corruption\n• Images too large or too small\n• Face detection failed\n• Temporary FAL.ai service issues"
  else if e.status == some 400 then
    "Invalid input parameters. Check image formats and parameters."
  else
    match e.bodyDetail with
    | some d => d
    | none => e.message

/-- `errorMessage`/`errorDetails` selection of the outer catch (lines 407-426). -/
def faceSwapCatchInfo (e : DownloadError) : String × String :=
  if jsIncludes e.message "No generated image found" then
    ("FAL.ai returned no image",
     "The face-swap completed but no image was returned. This might be due to face detection issues.")
  else if e.code == some "ENOTFOUND" then
    ("Network error", "Unable to connect to FAL.ai services")
  else if e.code == some "ETIMEDOUT" then
    ("Request timeout", "FAL.ai request took too long to complete")
  else if e.responseStatus == some 404 then
    ("Generated image not found", "The generated image URL is no longer accessible")
  else
    ("Failed to process advanced face-swap", e.message)

def jsValToJson : JSVal → Option Json
  | .str s => some (.str s)
  | .bool b => some (.bool b)
  | .undefined => none

/-- The `/api/face-swap` handler (`backend/server.js` lines 180-434).
The `resultStructure` diagnostics of the no-URL branch depend on the untyped
FAL response object and are abstracted to an empty object. -/
def faceSwapHandler (req : FaceSwapRequest) (store : Store)
    (w : FaceSwapWorld) : FaceSwapOutcome :=
  if w.falKeyConfigured then
    match req.files.find? (fun f => f.fieldname == "face_image") with
    | none =>
      ⟨{ status := 400,
         body := .json (.obj [("error", .str "Face image (camera capture) is required")]) },
       none, store⟩
    | some faceImageFile =>
      match req.files.find? (fun f => f.fieldname == "target_image") with
      | none =>
        ⟨{ status := 400,
           body := .json (.obj [("error", .str "Target image is required")]) },
         none, store⟩
      | some targetImageFile =>
        let falInput : FalInput :=
          { face_image_0 := faceImageFile.buffer,
            target_image := targetImageFile.buffer,
            gender_0 := jsOr req.gender_0 (.str "male"),
            workflow_type := jsOr req.workflow_type (.str "user_hair"),
            upscale := jsStrictEq req.upscale (.str "true") ||
                       jsStrictEq req.upscale (.bool true) }
        match w.fal with
        | .error falError =>
          ⟨{ status := 500,
             body := .json (jsObj
               [("error", some (.str "FAL.ai face-swap failed")),
                ("details", some (.str (falErrorDetails falError))),
                ("falStatus", (falError.status).map (fun s => Json.num s)),
                ("troubleshooting", some (.obj
                  [("faceImageSize", .num faceImageFile.size),
                   ("targetImageSize", .num targetImageFile.size),
                   ("faceImageType", .str faceImageFile.mimetype),
                   ("targetImageType", .str targetImageFile.mimetype)])),
                ("timestamp", some (.str w.now))]) },
           some falInput, store⟩
        | .ok none =>
          ⟨{ status := 500,
             body := .json (.obj
               [("error", .str "No generated image found in face-swap response"),
                ("details", .str "FAL.ai completed the request but returned no image URL"),
                ("resultStructure", .obj []),
                ("timestamp", .str w.now)]) },
           some falInput, store⟩
        | .ok (some generatedImageUrl) =>
          match w.download with
          | .error e =>
            ⟨{ status := 500,
               body := .json (.obj
                 [("error", .str (faceSwapCatchInfo e).1),
                  ("details", .str (faceSwapCatchInfo e).2),
                  ("timestamp", .str w.now)]) },
             some falInput, store⟩
          | .ok bytes =>
            let generatedImageBase64 := base64Encode bytes
            let generatedImageDataUrl :=
              "data:image/jpeg;base64," ++ generatedImageBase64
            let imageId := toString w.nowMs ++ "-" ++ w.rand
            let store2 := storeSet store imageId generatedImageBase64
            let downloadUrl := w.urlBase ++ "/download/" ++ imageId
            let qrCode := qrToDataURL generatedImageUrl
            ⟨{ status := 200,
               body := .json (jsObj
                 [("success", some (.bool true)),
                  ("generatedImage", some (.str generatedImageDataUrl)),
                  ("publicImageUrl", some (.str generatedImageUrl)),
                  ("downloadUrl", some (.str downloadUrl)),
                  ("qrCode", some (.str qrCode)),
                  ("feature", some (.str "face-swap")),
                  ("parameters", some (jsObj
                    [("workflow_type", jsValToJson falInput.workflow_type),
                     ("gender_0", jsValToJson falInput.gender_0),
                     ("upscale", some (.bool falInput.upscale))])),
                  ("processedImages", some (.obj
                    [("faceImageSize", .num faceImageFile.size),
                     ("targetImageSize", .num targetImageFile.size)])),
                  ("imageId", some (.str imageId)),
                  ("timestamp", some (.str w.now)),
                  ("message", some (.str "Advanced face-swap processing completed successfully"))]) },
             some falInput, store2⟩
  else
    ⟨{ status := 500,
       body := .json (.obj [("error", .str "FAL_KEY not configured")]) },
     none, store⟩

/-! ## `GET /download/:imageId` -/

/-- The `/download/:imageId` handler (`backend/server.js` lines 437-473).
The guard is `if (global.imageStore && global.imageStore[imageId])`, a
truthiness test: an entry whose stored value is the empty string fails it. -/
def downloadHandler (store : Store) (imageId : String) :
    HttpResponse × Store :=
  match storeGet store imageId with
  | some imageBase64 =>
    if imageBase64 = "" then
      ({ status := 404,
         body := .json (.obj
           [("error", .str "Image not found"),
            ("details", .str "The requested image is no longer available for download")]) },
       store)
    else
      let imageBuffer := base64Decode imageBase64
      ({ status := 200,
         headers :=
           [("Content-Type", "image/jpeg"),
            ("Content-Disposition",
             "attachment; filename=\"assetwise-generated-" ++ imageId ++ ".jpg\""),
            ("Content-Length", toString imageBuffer.length),
            ("Cache-Control", "no-cache")],
         body := .bytes imageBuffer }, store)
  | none =>
    ({ status := 404,
       body := .json (.obj
         [("error", .str "Image not found"),
          ("details", .str "The requested image is no longer available for download")]) },
     store)

/-! ## Periodic cleanup (`setInterval`, lines 476-490) -/

def oneHourMs : Int := 60 * 60 * 1000

/-- `parseInt(imageId.split('-')[0])` on the identifiers this server
generates (a run of decimal digits before the first dash); `none` models
`NaN`. -/
def leadingTimestamp (imageId : String) : Option Nat :=
  let head := imageId.data.takeWhile (fun c => c != '-')
  let ds := head.takeWhile Char.isDigit
  if ds.isEmpty then none
  else some (ds.foldl (fun acc c => acc * 10 + (c.toNat - 48)) 0)

/-- The deletion test `now - timestamp > oneHour`; a `NaN` timestamp makes
the comparison false. -/
def imageExpired (now : Int) (imageId : String) : Bool :=
  match leadingTimestamp imageId with
  | some ts => decide (now - (ts : Int) > oneHourMs)
  | none => false

/-- One run of the cleanup loop over `global.imageStore`. -/
def cleanupStore (now : Int) (store : Store) : Store :=
  store.filter (fun kv => !imageExpired now kv.1)

/-! ## Frontend state machine (`src/App.tsx`)

`Step s a s'` records that user action `a`, in UI state `s`, performs a
`setState` call that moves the app to state `s'`; only realized `setState`
transitions are included (a failed `getUserMedia` leaves the state
untouched). -/

inductive AppState where
  | welcome | camera | preview | processing | result
deriving DecidableEq

inductive AppAction where
  | startCamera | captureImage | fileUpload | retakePhoto
  | generateStart | generateSuccess | generateFailure | reset
deriving DecidableEq

inductive Step : AppState → AppAction → AppState → Prop where
  | startCamera : Step .welcome .startCamera .camera
  | captureImage : Step .camera .captureImage .preview
  | fileUpload : Step .camera .fileUpload .preview
  | retakePhoto : Step .preview .retakePhoto .camera
  | generateStart : Step .preview .generateStart .processing
  | generateSuccess : Step .processing .generateSuccess .result
  | generateFailure : Step .processing .generateFailure .preview
  | reset {s : AppState} : s ≠ .welcome → Step s .reset .welcome

/-- Forward adjacency in the chain welcome → camera → preview → processing →
result. -/
def forwardStep : AppState → AppState → Bool
  | .welcome, .camera => true
  | .camera, .preview => true
  | .preview, .processing => true
  | .processing, .result => true
  | _, _ => false

/-! ## Concrete fixtures for witnesses and counterexamples -/

def imgFile : UploadedFile :=
  { fieldname := "image", originalname := "photo.jpg",
    mimetype := "image/jpeg", buffer := [137, 80, 78] }

def faceFile : UploadedFile :=
  { fieldname := "face_image", originalname := "face.jpg",
    mimetype := "image/jpeg", buffer := [1, 2, 3, 4] }

def targetFile : UploadedFile :=
  { fieldname := "target_image", originalname := "target.jpg",
    mimetype := "image/jpeg", buffer := [5, 6, 7] }

def okGenWorld : GenerateWorld :=
  { fal := .ok (some "https://fal.media/out.jpg"),
    download := .ok [10, 200, 255],
    now := "2026-01-01T00:00:00.000Z" }

def okSwapWorld : FaceSwapWorld :=
  { falKeyConfigured := true,
    fal := .ok (some "https://fal.media/swap.jpg"),
    download := .ok [10, 200, 255],
    nowMs := 1700000000000, rand := "ab12cd34e",
    urlBase := "http://localhost:3000",
    now := "2026-01-01T00:00:00.000Z" }

def noKeyWorld : FaceSwapWorld :=
  { falKeyConfigured := false,
    fal := .ok none,
    download := .error { message := "m", code := none, responseStatus := none },
    nowMs := 0, rand := "r", urlBase := "", now := "t" }

def emptyDownloadWorld : FaceSwapWorld :=
  { okSwapWorld with download := .ok [] }

def plainSwapRequest : FaceSwapRequest :=
  { gender_0 := .undefined, workflow_type := .undefined,
    upscale := .str "true", files := [faceFile, targetFile] }

def genReqOk : GenerateRequest :=
  { feature := some "ai-style", prompt := none, files := [imgFile] }

def genReqNoFeature : GenerateRequest :=
  { feature := none, prompt := none, files := [imgFile] }

def genReqNoImage : GenerateRequest :=
  { feature := some "ai-style", prompt := none, files := [] }

def genReqCustomNoPrompt : GenerateRequest :=
  { feature := some "custom", prompt := none, files := [imgFile] }

def fsReqNoFiles : FaceSwapRequest :=
  { gender_0 := .undefined, workflow_type := .undefined,
    upscale := .undefined, files := [] }

def demoStore : Store :=
  [("1700000000000-ab12cd34e", base64Encode [10, 200, 255])]

def swapFalInput : FalInput :=
  { face_image_0 := faceFile.buffer, target_image := targetFile.buffer,
    gender_0 := .str "male", workflow_type := .str "user_hair",
    upscale := true }
theorem charToSextet_sextetToChar :
    ∀ n, n < 64 → charToSextet (sextetToChar n) = some n := by decide

theorem sextetToChar_ne_pad :
    ∀ n, n < 64 → (sextetToChar n == '=') = false := by decide

theorem decodeChunks_encodeChunks :
    ∀ (n : Nat) (bs : List Nat), bs.length ≤ n → (∀ b ∈ bs, b < 256) →
      decodeChunks (encodeChunks bs) = bs := by
  intro n
  induction n with
  | zero =>
    intro bs hlen _
    have hnil : bs = [] := by
      cases bs with
      | nil => rfl
      | cons a t => simp at hlen
    subst hnil
    simp [encodeChunks, decodeChunks]
  | succ n ih =>
    intro bs hlen hb
    rcases bs with _ | ⟨b1, _ | ⟨b2, _ | ⟨b3, rest⟩⟩⟩
    · simp [encodeChunks, decodeChunks]
    · have hb1 : b1 < 256 := hb b1 (by simp)
      have e1 := charToSextet_sextetToChar (b1 / 4) (by omega)
      have e2 := charToSextet_sextetToChar ((b1 % 4) * 16) (by omega)
      simp [encodeChunks, decodeChunks, e1, e2]
      omega
    · have hb1 : b1 < 256 := hb b1 (by simp)
      have hb2 : b2 < 256 := hb b2 (by simp)
      have e1 := charToSextet_sextetToChar (b1 / 4) (by omega)
      have e2 := charToSextet_sextetToChar ((b1 % 4) * 16 + b2 / 16) (by omega)
      have e3 := charToSextet_sextetToChar ((b2 % 16) * 4) (by omega)
      have ne3 := sextetToChar_ne_pad ((b2 % 16) * 4) (by omega)
      simp [encodeChunks, decodeChunks, e1, e2, e3, ne3]
      omega
    · have hb1 : b1 < 256 := hb b1 (by simp)
      have hb2 : b2 < 256 := hb b2 (by simp)
      have hb3 : b3 < 256 := hb b3 (by simp)
      have e1 := charToSextet_sextetToChar (b1 / 4) (by omega)
      have e2 := charToSextet_sextetToChar ((b1 % 4) * 16 + b2 / 16) (by omega)
      have e3 := charToSextet_sextetToChar ((b2 % 16) * 4 + b3 / 64) (by omega)
      have e4 := charToSextet_sextetToChar (b3 % 64) (by omega)
      have ne3 := sextetToChar_ne_pad ((b2 % 16) * 4 + b3 / 64) (by omega)
      have ne4 := sextetToChar_ne_pad (b3 % 64) (by omega)
      have hrest : decodeChunks (encodeChunks rest) = rest := by
        refine ih rest (by simp at hlen; omega) ?_
        intro b hbmem
        exact hb b (by simp [hbmem])
      simp [encodeChunks, decodeChunks, e1, e2, e3, e4, ne3, ne4, hrest]
      omega

/-- Base64 round trip: decoding the encoding of any byte buffer recovers it. -/
theorem base64Decode_base64Encode (bs : List Nat) (h : ∀ b ∈ bs, b < 256) :
    base64Decode (base64Encode bs) = bs :=
  decodeChunks_encodeChunks bs.length bs (Nat.le_refl _) h

theorem encodeChunks_ne_nil (bs : List Nat) (h : bs ≠ []) :
    encodeChunks bs ≠ [] := by
  rcases bs with _ | ⟨b1, _ | ⟨b2, _ | ⟨b3, rest⟩⟩⟩ <;> simp [encodeChunks] at h ⊢

theorem base64Encode_ne_empty (bs : List Nat) (h : bs ≠ []) :
    base64Encode bs ≠ "" := by
  intro hcontra
  have hdata : encodeChunks bs = [] := by
    have := congrArg String.data hcontra
    simpa [base64Encode] using this
  exact encodeChunks_ne_nil bs h hdata


theorem qrPayloadOf_qrToDataURL (u : String) :
    qrPayloadOf (qrToDataURL u) = some u := by
  unfold qrPayloadOf qrToDataURL
  rw [String.data_append]
  have hlen : ("data:image/png;qr,".data).length = 18 := rfl
  rw [← hlen, List.take_left, List.drop_left, if_pos rfl]

/-- C2: every successful response of `POST /api/generate` and of
`POST /api/face-swap` carries a `qrCode` field whose QR payload is exactly
the URL returned in the `publicImageUrl` field of the same response. -/
theorem c2_qrcode_encodes_publicImageUrl (greq : GenerateRequest)
    (gw : GenerateWorld) (fsreq : FaceSwapRequest) (store : Store)
    (fsw : FaceSwapWorld) :
    ((generateHandler greq gw).response.status = 200 →
      ∃ u q,
        bodyLookup (generateHandler greq gw).response "publicImageUrl" =
          some (.str u) ∧
        bodyLookup (generateHandler greq gw).response "qrCode" =
          some (.str q) ∧
        qrPayloadOf q = some u) ∧
    ((faceSwapHandler fsreq store fsw).response.status = 200 →
      ∃ u q,
        bodyLookup (faceSwapHandler fsreq store fsw).response "publicImageUrl" =
          some (.str u) ∧
        bodyLookup (faceSwapHandler fsreq store fsw).response "qrCode" =
          some (.str q) ∧
        qrPayloadOf q = some u) := by
  constructor
  · unfold generateHandler generateCore
    split
    · simp
    · split
      · split
        · simp
        · split
          · simp
          · simp
          · split
            · simp
            · rename_i x1 url hfal x2 bytes hdl
              intro _
              refine ⟨url, qrToDataURL url, ?_, ?_, qrPayloadOf_qrToDataURL url⟩ <;>
                simp [bodyLookup, jsObj, Json.lookup, List.find?, List.filterMap]
      · split
        · simp
        · simp
        · split
          · simp
          · rename_i x1 url hfal x2 bytes hdl
            intro _
            refine ⟨url, qrToDataURL url, ?_, ?_, qrPayloadOf_qrToDataURL url⟩ <;>
              simp [bodyLookup, jsObj, Json.lookup, List.find?, List.filterMap]
  · unfold faceSwapHandler
    split
    · split
      · simp
      · split
        · simp
        · split
          · simp
          · simp
          · split
            · simp
            · rename_i x1 url hfal x2 bytes hdl
              intro _
              refine ⟨url, qrToDataURL url, ?_, ?_, qrPayloadOf_qrToDataURL url⟩ <;>
                simp [bodyLookup, jsObj, Json.lookup, List.find?, List.filterMap]
    · simp

theorem c2_qrcode_encodes_publicImageUrl_witness :
    (∃ u q,
        bodyLookup (generateHandler genReqOk okGenWorld).response "publicImageUrl" =
          some (.str u) ∧
        bodyLookup (generateHandler genReqOk okGenWorld).response "qrCode" =
          some (.str q) ∧
        qrPayloadOf q = some u) ∧
    (∃ u q,
        bodyLookup (faceSwapHandler plainSwapRequest [] okSwapWorld).response "publicImageUrl" =
          some (.str u) ∧
        bodyLookup (faceSwapHandler plainSwapRequest [] okSwapWorld).response "qrCode" =
          some (.str q) ∧
        qrPayloadOf q = some u) :=
  ⟨(c2_qrcode_encodes_publicImageUrl genReqOk okGenWorld plainSwapRequest []
      okSwapWorld).1 (by rfl),
   (c2_qrcode_encodes_publicImageUrl genReqOk okGenWorld plainSwapRequest []
      okSwapWorld).2 (by rfl)⟩

/-- C1 counterexample: a `/api/generate` request that omits the `feature`
field still produces a successful response, and that response's JSON body
contains no `feature` key (`JSON.stringify` drops the `undefined`-valued
property), refuting the claim that every successful response contains all
six fields. -/
theorem c1_missing_feature_counterexample :
    (generateHandler genReqNoFeature okGenWorld).response.status = 200 ∧
    bodyLookup (generateHandler genReqNoFeature okGenWorld).response "feature" =
      none :=
  ⟨rfl, rfl⟩

/-- C1 (amended): every successful `/api/generate` response is a JSON object
with `success = true` and `generatedImage`, `publicImageUrl`, `qrCode` and
`timestamp` fields; the `feature` field echoes the request's `feature` value
whenever one was supplied, and is absent from the JSON when the request
omitted it. -/
theorem c1_generate_success_fields (req : GenerateRequest) (w : GenerateWorld)
    (h200 : (generateHandler req w).response.status = 200) :
    bodyLookup (generateHandler req w).response "success" = some (.bool true) ∧
    (bodyLookup (generateHandler req w).response "generatedImage").isSome ∧
    (bodyLookup (generateHandler req w).response "publicImageUrl").isSome ∧
    (bodyLookup (generateHandler req w).response "qrCode").isSome ∧
    (bodyLookup (generateHandler req w).response "timestamp").isSome ∧
    (∀ f, req.feature = some f →
      bodyLookup (generateHandler req w).response "feature" =
        some (.str f)) ∧
    (req.feature = none →
      bodyLookup (generateHandler req w).response "feature" = none) := by
  revert h200
  unfold generateHandler generateCore
  split
  · simp
  · split
    · split
      · simp
      · split
        · simp
        · simp
        · split
          · simp
          · intro _
            rcases hf : req.feature with _ | f <;>
              simp [bodyLookup, jsObj, Json.lookup, List.find?,
                    List.filterMap, hf]
    · split
      · simp
      · simp
      · split
        · simp
        · intro _
          rcases hf : req.feature with _ | f <;>
            simp [bodyLookup, jsObj, Json.lookup, List.find?,
                  List.filterMap, hf]

theorem c1_generate_success_fields_witness :
    bodyLookup (generateHandler genReqOk okGenWorld).response "success" =
      some (.bool true) ∧
    (bodyLookup (generateHandler genReqOk okGenWorld).response "generatedImage").isSome ∧
    (bodyLookup (generateHandler genReqOk okGenWorld).response "publicImageUrl").isSome ∧
    (bodyLookup (generateHandler genReqOk okGenWorld).response "qrCode").isSome ∧
    (bodyLookup (generateHandler genReqOk okGenWorld).response "timestamp").isSome ∧
    (∀ f, genReqOk.feature = some f →
      bodyLookup (generateHandler genReqOk okGenWorld).response "feature" =
        some (.str f)) ∧
    (genReqOk.feature = none →
      bodyLookup (generateHandler genReqOk okGenWorld).response "feature" =
        none) :=
  c1_generate_success_fields genReqOk okGenWorld rfl

/-- C3 counterexample: with `FAL_KEY` unconfigured, a `/api/face-swap`
request missing the `face_image` file is answered 500 (`FAL_KEY not
configured`) before any file validation, not 400 as claimed (no FAL call
is made either way). -/
theorem c3_missing_falkey_counterexample :
    fsReqNoFiles.files.find? (fun f => f.fieldname == "face_image") = none ∧
    (faceSwapHandler fsReqNoFiles [] noKeyWorld).response.status = 500 ∧
    (faceSwapHandler fsReqNoFiles [] noKeyWorld).falCall = none :=
  ⟨rfl, rfl, rfl⟩

/-- C3 (amended): a `/api/generate` request without an `image` file is
answered 400 and FAL is not called; a `/api/face-swap` request missing
`face_image` or `target_image` is answered 400 and FAL is not called,
provided `FAL_KEY` is configured — when `FAL_KEY` is missing the face-swap
endpoint answers 500 before the file checks, still without calling FAL. -/
theorem c3_missing_files_rejected (greq : GenerateRequest) (gw : GenerateWorld)
    (fsreq : FaceSwapRequest) (store : Store) (fsw : FaceSwapWorld) :
    (greq.files.find? (fun f => f.fieldname == "image") = none →
      (generateHandler greq gw).response.status = 400 ∧
      (generateHandler greq gw).falCall = none) ∧
    (fsw.falKeyConfigured = true →
      (fsreq.files.find? (fun f => f.fieldname == "face_image") = none ∨
       fsreq.files.find? (fun f => f.fieldname == "target_image") = none) →
      (faceSwapHandler fsreq store fsw).response.status = 400 ∧
      (faceSwapHandler fsreq store fsw).falCall = none) ∧
    (fsw.falKeyConfigured = false →
      (faceSwapHandler fsreq store fsw).response.status = 500 ∧
      (faceSwapHandler fsreq store fsw).falCall = none) := by
  refine ⟨?_, ?_, ?_⟩
  · intro h
    simp [generateHandler, h]
  · intro hkey hmiss
    rcases hf : fsreq.files.find? (fun f => f.fieldname == "face_image") with _ | ff
    · simp [faceSwapHandler, hkey, hf]
    · rcases hmiss with h1 | h2
      · rw [hf] at h1
        exact absurd h1 (by simp)
      · simp [faceSwapHandler, hkey, hf, h2]
  · intro h
    simp [faceSwapHandler, h]

theorem c3_missing_files_rejected_witness :
    ((generateHandler genReqNoImage okGenWorld).response.status = 400 ∧
     (generateHandler genReqNoImage okGenWorld).falCall = none) ∧
    ((faceSwapHandler fsReqNoFiles [] okSwapWorld).response.status = 400 ∧
     (faceSwapHandler fsReqNoFiles [] okSwapWorld).falCall = none) ∧
    ((faceSwapHandler fsReqNoFiles [] noKeyWorld).response.status = 500 ∧
     (faceSwapHandler fsReqNoFiles [] noKeyWorld).falCall = none) :=
  ⟨(c3_missing_files_rejected genReqNoImage okGenWorld fsReqNoFiles []
      okSwapWorld).1 rfl,
   (c3_missing_files_rejected genReqNoImage okGenWorld fsReqNoFiles []
      okSwapWorld).2.1 rfl (Or.inl rfl),
   (c3_missing_files_rejected genReqNoImage okGenWorld fsReqNoFiles []
      noKeyWorld).2.2 rfl⟩

/-- C4 counterexample: a `/api/generate` request with a valid image file and
`feature = custom` but no `prompt` is rejected with 400 `Custom prompt is
required`, refuting the claim that omitting `prompt` never causes rejection
for any of the three feature values. -/
theorem c4_custom_without_prompt_counterexample :
    genReqCustomNoPrompt.files.find? (fun f => f.fieldname == "image") =
      some imgFile ∧
    genReqCustomNoPrompt.feature = some "custom" ∧
    genReqCustomNoPrompt.prompt = none ∧
    (generateHandler genReqCustomNoPrompt okGenWorld).response.status = 400 ∧
    bodyLookup (generateHandler genReqCustomNoPrompt okGenWorld).response "error" =
      some (.str "Custom prompt is required") :=
  ⟨rfl, rfl, rfl, by rfl, by rfl⟩

/-- C4 (amended): for a `/api/generate` request with a valid image file, the
`prompt` field is optional for every `feature` other than `custom` (the
request is never rejected with 400); for `feature = custom` a missing or
blank prompt is rejected with 400 `Custom prompt is required`. -/
theorem c4_prompt_optional_except_custom (req : GenerateRequest)
    (w : GenerateWorld) (file : UploadedFile)
    (hImg : req.files.find? (fun f => f.fieldname == "image") = some file) :
    (req.feature ≠ some "custom" →
      (generateHandler req w).response.status ≠ 400) ∧
    (req.feature = some "custom" → (jsTrim (req.prompt.getD "")).data.isEmpty = true →
      (generateHandler req w).response.status = 400 ∧
      bodyLookup (generateHandler req w).response "error" =
        some (.str "Custom prompt is required")) := by
  constructor
  · intro hne
    have hbeq : (req.feature == some "custom") = false := by
      simp [hne]
    unfold generateHandler generateCore
    rw [hImg]
    simp only [hbeq, Bool.false_eq_true, if_false]
    split
    · simp
    · simp
    · split <;> simp
  · intro hcust hblank
    constructor
    · simp [generateHandler, hImg, hcust, hblank]
    · simp [generateHandler, hImg, hcust, hblank, bodyLookup, Json.lookup,
            List.find?]

theorem c4_prompt_optional_except_custom_witness :
    (generateHandler genReqOk okGenWorld).response.status ≠ 400 ∧
    ((generateHandler genReqCustomNoPrompt okGenWorld).response.status = 400 ∧
     bodyLookup (generateHandler genReqCustomNoPrompt okGenWorld).response "error" =
       some (.str "Custom prompt is required")) :=
  ⟨(c4_prompt_optional_except_custom genReqOk okGenWorld imgFile rfl).1
     (by decide),
   (c4_prompt_optional_except_custom genReqCustomNoPrompt okGenWorld imgFile
      rfl).2 rfl (by rfl)⟩

/-- C5 counterexample: the 400 response for a `/api/generate` request with
no image file has a JSON body with an `error` field but no `details` field,
refuting the claim that every failure body contains both. -/
theorem c5_missing_details_counterexample :
    (generateHandler genReqNoImage okGenWorld).response.status = 400 ∧
    (bodyLookup (generateHandler genReqNoImage okGenWorld).response "error").isSome ∧
    bodyLookup (generateHandler genReqNoImage okGenWorld).response "details" =
      none :=
  ⟨by rfl, by rfl, by rfl⟩

/-- C5 (amended): every failing `/api/generate` or `/api/face-swap` request
receives a single terminal JSON response with status 400 or 500 that always
contains an `error` field; the catch-handler 500 responses additionally
contain a `details` field, the only 500 without one being the face-swap
`FAL_KEY not configured` response (the early-validation 400 bodies carry
only `error`). -/
theorem c5_failures_terminal_400_or_500 (greq : GenerateRequest)
    (gw : GenerateWorld) (fsreq : FaceSwapRequest) (store : Store)
    (fsw : FaceSwapWorld) :
    ((generateHandler greq gw).response.status ≠ 200 →
      ((generateHandler greq gw).response.status = 400 ∨
       (generateHandler greq gw).response.status = 500) ∧
      (bodyLookup (generateHandler greq gw).response "error").isSome ∧
      ((generateHandler greq gw).response.status = 500 →
        (bodyLookup (generateHandler greq gw).response "details").isSome)) ∧
    ((faceSwapHandler fsreq store fsw).response.status ≠ 200 →
      ((faceSwapHandler fsreq store fsw).response.status = 400 ∨
       (faceSwapHandler fsreq store fsw).response.status = 500) ∧
      (bodyLookup (faceSwapHandler fsreq store fsw).response "error").isSome ∧
      ((faceSwapHandler fsreq store fsw).response.status = 500 →
        (bodyLookup (faceSwapHandler fsreq store fsw).response "details").isSome ∨
        bodyLookup (faceSwapHandler fsreq store fsw).response "error" =
          some (.str "FAL_KEY not configured"))) := by
  constructor
  · unfold generateHandler generateCore
    repeat' split
    all_goals simp [bodyLookup, jsObj, Json.lookup, List.find?, List.filterMap]
  · unfold faceSwapHandler
    repeat' split
    all_goals simp [bodyLookup, jsObj, Json.lookup, List.find?, List.filterMap]

theorem c5_failures_terminal_400_or_500_witness :
    (((generateHandler genReqNoImage okGenWorld).response.status = 400 ∨
      (generateHandler genReqNoImage okGenWorld).response.status = 500) ∧
     (bodyLookup (generateHandler genReqNoImage okGenWorld).response "error").isSome ∧
     ((generateHandler genReqNoImage okGenWorld).response.status = 500 →
       (bodyLookup (generateHandler genReqNoImage okGenWorld).response "details").isSome)) ∧
    (((faceSwapHandler fsReqNoFiles [] noKeyWorld).response.status = 400 ∨
      (faceSwapHandler fsReqNoFiles [] noKeyWorld).response.status = 500) ∧
     (bodyLookup (faceSwapHandler fsReqNoFiles [] noKeyWorld).response "error").isSome ∧
     ((faceSwapHandler fsReqNoFiles [] noKeyWorld).response.status = 500 →
       (bodyLookup (faceSwapHandler fsReqNoFiles [] noKeyWorld).response "details").isSome ∨
       bodyLookup (faceSwapHandler fsReqNoFiles [] noKeyWorld).response "error" =
         some (.str "FAL_KEY not configured"))) :=
  ⟨(c5_failures_terminal_400_or_500 genReqNoImage okGenWorld fsReqNoFiles []
      noKeyWorld).1 (by decide),
   (c5_failures_terminal_400_or_500 genReqNoImage okGenWorld fsReqNoFiles []
      noKeyWorld).2 (by decide)⟩

/-- C6 counterexample: an entry whose stored value is the empty string is a
key of the store, yet the download handler's truthiness guard
(`if (global.imageStore && global.imageStore[imageId])`) sends 404 instead
of 200, refuting the claim as stated. -/
theorem c6_empty_value_counterexample :
    storeGet [("5-abc", "")] "5-abc" = some "" ∧
    (downloadHandler [("5-abc", "")] "5-abc").1.status = 404 :=
  ⟨by rfl, by rfl⟩

/-- C6 (amended): `GET /download/:imageId` never changes the store; when
`imageId` maps to a nonempty stored value the response is 200 with the
base64-decoded stored bytes and a `Content-Disposition` attachment header;
when `imageId` is not a key the response is 404 with a JSON error body; and
when `imageId` maps to the empty string the truthiness guard also sends 404. -/
theorem c6_download_endpoint (store : Store) (imageId : String) :
    (downloadHandler store imageId).2 = store ∧
    (∀ b64, storeGet store imageId = some b64 → b64 ≠ "" →
      (downloadHandler store imageId).1.status = 200 ∧
      (downloadHandler store imageId).1.body = .bytes (base64Decode b64) ∧
      headerLookup (downloadHandler store imageId).1 "Content-Disposition" =
        some ("attachment; filename=\"assetwise-generated-" ++ imageId ++ ".jpg\"")) ∧
    (storeGet store imageId = none →
      (downloadHandler store imageId).1.status = 404 ∧
      (bodyLookup (downloadHandler store imageId).1 "error").isSome) ∧
    (∀ b64, storeGet store imageId = some b64 → b64 = "" →
      (downloadHandler store imageId).1.status = 404) := by
  rcases h : storeGet store imageId with _ | v
  · refine ⟨?_, ?_, ?_, ?_⟩
    · simp [downloadHandler, h]
    · intro b64 hc
      exact absurd hc (by simp)
    · intro _
      constructor <;>
        simp [downloadHandler, h, bodyLookup, Json.lookup, List.find?]
    · intro b64 hc
      exact absurd hc (by simp)
  · have hval : ∀ b64, some v = some b64 → b64 = v := by
      intro b64 hc
      exact (Option.some.inj hc).symm
    by_cases hv : v = ""
    · subst hv
      refine ⟨?_, ?_, ?_, ?_⟩
      · simp [downloadHandler, h]
      · intro b64 hc hne
        exact absurd (hval b64 hc) hne
      · intro hnone
        exact absurd hnone (by simp)
      · intro b64 _ _
        simp [downloadHandler, h]
    · refine ⟨?_, ?_, ?_, ?_⟩
      · simp [downloadHandler, h, hv]
      · intro b64 hc hne
        rw [hval b64 hc]
        refine ⟨?_, ?_, ?_⟩ <;>
          simp [downloadHandler, h, hv, headerLookup, List.find?]
      · intro hnone
        exact absurd hnone (by simp)
      · intro b64 hc he
        refine absurd ?_ hv
        rw [← hval b64 hc]
        exact he

theorem c6_download_endpoint_witness :
    (downloadHandler demoStore "1700000000000-ab12cd34e").2 = demoStore ∧
    ((downloadHandler demoStore "1700000000000-ab12cd34e").1.status = 200 ∧
     (downloadHandler demoStore "1700000000000-ab12cd34e").1.body =
       .bytes (base64Decode (base64Encode [10, 200, 255])) ∧
     headerLookup (downloadHandler demoStore "1700000000000-ab12cd34e").1
         "Content-Disposition" =
       some ("attachment; filename=\"assetwise-generated-" ++
         "1700000000000-ab12cd34e" ++ ".jpg\"")) ∧
    ((downloadHandler demoStore "missing-id").1.status = 404 ∧
     (bodyLookup (downloadHandler demoStore "missing-id").1 "error").isSome) :=
  ⟨(c6_download_endpoint demoStore "1700000000000-ab12cd34e").1,
   (c6_download_endpoint demoStore "1700000000000-ab12cd34e").2.1
     (base64Encode [10, 200, 255]) (by rfl) (by decide),
   (c6_download_endpoint demoStore "missing-id").2.2.1 (by rfl)⟩

/-- C7: one run of the cleanup loop, on a store whose keys all carry a
parseable leading timestamp (the only writer creates keys
`Date.now() + "-" + random`), keeps exactly the entries whose timestamp is
at most one hour before `now` — i.e. deletes exactly those more than one
hour old — hence every surviving key parses to a timestamp at most one hour
old. -/
theorem c7_cleanup_deletes_exactly_expired (now : Int) (store : Store)
    (hkeys : ∀ kv ∈ store, (leadingTimestamp kv.1).isSome) :
    (∀ kv ∈ store, (kv ∈ cleanupStore now store ↔
      ∃ ts, leadingTimestamp kv.1 = some ts ∧ now - (ts : Int) ≤ oneHourMs)) ∧
    (∀ kv ∈ cleanupStore now store,
      ∃ ts, leadingTimestamp kv.1 = some ts ∧ now - (ts : Int) ≤ oneHourMs) := by
  have hdir : ∀ kv ∈ store, kv ∈ cleanupStore now store →
      ∃ ts, leadingTimestamp kv.1 = some ts ∧ now - (ts : Int) ≤ oneHourMs := by
    intro kv hmem hin
    rcases Option.isSome_iff_exists.mp (hkeys kv hmem) with ⟨ts, hts⟩
    refine ⟨ts, hts, ?_⟩
    have hp := (List.mem_filter.mp hin).2
    simp [imageExpired, hts] at hp
    omega
  constructor
  · intro kv hmem
    constructor
    · exact hdir kv hmem
    · rintro ⟨ts, hts, hle⟩
      refine List.mem_filter.mpr ⟨hmem, ?_⟩
      simp [imageExpired, hts]
      omega
  · intro kv hin
    exact hdir kv (List.mem_filter.mp hin).1 hin

theorem c7_cleanup_deletes_exactly_expired_witness :
    ∃ ts, leadingTimestamp "7000000-def" = some ts ∧
      (7200000 : Int) - (ts : Int) ≤ oneHourMs :=
  (c7_cleanup_deletes_exactly_expired 7200000
    [("1000-abc", "x"), ("7000000-def", "y")] (by decide)).2
    ("7000000-def", "y") (by decide)

/-- C8 counterexample: the Reset button is a user action available in the
`result` state whose `setState('welcome')` moves the app back to `welcome`,
which is not a move along welcome → camera → preview → processing → result,
refuting the claim that user actions move the state along that flow. -/
theorem c8_reset_goes_backwards_counterexample :
    Step .result .reset .welcome ∧ forwardStep .result .welcome = false :=
  ⟨Step.reset (by decide), rfl⟩

/-- C8 (amended): the UI state is at every moment one of the five states
welcome, camera, preview, processing, result, and every realized transition
either advances along welcome → camera → preview → processing → result or
is one of the three returns present in the code: Reset to `welcome`, a
failed generation from `processing` back to `preview`, or Retake from
`preview` back to `camera`. -/
theorem c8_five_state_flow :
    (∀ s : AppState, s = .welcome ∨ s = .camera ∨ s = .preview ∨
      s = .processing ∨ s = .result) ∧
    (∀ s a t, Step s a t →
      forwardStep s t = true ∨
      (a = .reset ∧ t = .welcome) ∨
      (a = .generateFailure ∧ s = .processing ∧ t = .preview) ∨
      (a = .retakePhoto ∧ s = .preview ∧ t = .camera)) := by
  constructor
  · intro s
    cases s <;> simp
  · intro s a t h
    cases h <;> simp [forwardStep]

theorem c8_five_state_flow_witness :
    forwardStep .welcome .camera = true ∨
    (AppAction.startCamera = .reset ∧ AppState.camera = .welcome) ∨
    (AppAction.startCamera = .generateFailure ∧
      AppState.welcome = .processing ∧ AppState.camera = .preview) ∨
    (AppAction.startCamera = .retakePhoto ∧
      AppState.welcome = .preview ∧ AppState.camera = .camera) :=
  c8_five_state_flow.2 .welcome .startCamera .camera Step.startCamera

/-- C9 counterexample: a successful face-swap whose downloaded image is the
empty byte sequence stores the empty string, and the subsequent download of
the returned `imageId` answers 404 (truthiness guard) instead of returning
the stored byte sequence, refuting the claim as stated for every stored
image. -/
theorem c9_zero_byte_image_counterexample :
    (faceSwapHandler plainSwapRequest [] emptyDownloadWorld).response.status =
      200 ∧
    storeGet (faceSwapHandler plainSwapRequest [] emptyDownloadWorld).store
      "1700000000000-ab12cd34e" = some "" ∧
    (downloadHandler
      (faceSwapHandler plainSwapRequest [] emptyDownloadWorld).store
      "1700000000000-ab12cd34e").1.status = 404 :=
  ⟨by rfl, by rfl, by rfl⟩

/-- C9 (amended): for every image stored by a successful `/api/face-swap`
whose downloaded byte sequence is nonempty, a `GET /download/:imageId` with
the `imageId` returned in that response (before eviction) returns exactly
that byte sequence — base64-encoding at store time followed by
base64-decoding at download time is the identity on the bytes.  A zero-byte
image is stored as the empty string, which the download endpoint's
truthiness guard then answers with 404. -/
theorem c9_store_download_roundtrip (req : FaceSwapRequest) (store : Store)
    (w : FaceSwapWorld) (bytes : List Nat) (ff tf : UploadedFile)
    (url : String)
    (hbytes : ∀ b ∈ bytes, b < 256) (hne : bytes ≠ [])
    (hkey : w.falKeyConfigured = true)
    (hface : req.files.find? (fun f => f.fieldname == "face_image") = some ff)
    (htarget : req.files.find? (fun f => f.fieldname == "target_image") =
      some tf)
    (hfal : w.fal = .ok (some url))
    (hdl : w.download = .ok bytes) :
    storeGet (faceSwapHandler req store w).store
      (toString w.nowMs ++ "-" ++ w.rand) = some (base64Encode bytes) ∧
    bodyLookup (faceSwapHandler req store w).response "imageId" =
      some (.str (toString w.nowMs ++ "-" ++ w.rand)) ∧
    (downloadHandler (faceSwapHandler req store w).store
      (toString w.nowMs ++ "-" ++ w.rand)).1.status = 200 ∧
    (downloadHandler (faceSwapHandler req store w).store
      (toString w.nowMs ++ "-" ++ w.rand)).1.body = .bytes bytes := by
  have hstore : (faceSwapHandler req store w).store =
      storeSet store (toString w.nowMs ++ "-" ++ w.rand)
        (base64Encode bytes) := by
    simp [faceSwapHandler, hkey, hface, htarget, hfal, hdl]
  have hget : storeGet (faceSwapHandler req store w).store
      (toString w.nowMs ++ "-" ++ w.rand) = some (base64Encode bytes) := by
    rw [hstore]
    simp [storeGet, storeSet, List.find?]
  have hneq : base64Encode bytes ≠ "" := base64Encode_ne_empty bytes hne
  refine ⟨hget, ?_, ?_, ?_⟩
  · simp [faceSwapHandler, hkey, hface, htarget, hfal, hdl, bodyLookup,
          jsObj, Json.lookup, List.find?, List.filterMap]
  · simp [downloadHandler, hget, hneq]
  · simp [downloadHandler, hget, hneq,
          base64Decode_base64Encode bytes hbytes]

theorem c9_store_download_roundtrip_witness :
    storeGet (faceSwapHandler plainSwapRequest [] okSwapWorld).store
      (toString okSwapWorld.nowMs ++ "-" ++ okSwapWorld.rand) =
      some (base64Encode [10, 200, 255]) ∧
    bodyLookup (faceSwapHandler plainSwapRequest [] okSwapWorld).response
      "imageId" =
      some (.str (toString okSwapWorld.nowMs ++ "-" ++ okSwapWorld.rand)) ∧
    (downloadHandler (faceSwapHandler plainSwapRequest [] okSwapWorld).store
      (toString okSwapWorld.nowMs ++ "-" ++ okSwapWorld.rand)).1.status =
      200 ∧
    (downloadHandler (faceSwapHandler plainSwapRequest [] okSwapWorld).store
      (toString okSwapWorld.nowMs ++ "-" ++ okSwapWorld.rand)).1.body =
      .bytes [10, 200, 255] :=
  c9_store_download_roundtrip plainSwapRequest [] okSwapWorld [10, 200, 255]
    faceFile targetFile "https://fal.media/swap.jpg" (by decide) (by decide)
    rfl (by rfl) (by rfl) rfl rfl

/-- C10: whenever `/api/face-swap` calls FAL, the forwarded `upscale` is the
boolean `true` exactly when the submitted field is the string `'true'` or
the boolean `true` (every other value, including absence, yields `false`);
an absent `gender_0` defaults to `male` and an absent `workflow_type` to
`user_hair`; and the success response's `parameters` object echoes exactly
the forwarded values. -/
theorem c10_faceswap_option_coercion (req : FaceSwapRequest) (store : Store)
    (w : FaceSwapWorld) (i : FalInput)
    (hcall : (faceSwapHandler req store w).falCall = some i) :
    (i.upscale = true ↔
      (req.upscale = .str "true" ∨ req.upscale = .bool true)) ∧
    (req.gender_0 = .undefined → i.gender_0 = .str "male") ∧
    (req.workflow_type = .undefined → i.workflow_type = .str "user_hair") ∧
    ((faceSwapHandler req store w).response.status = 200 →
      bodyLookup (faceSwapHandler req store w).response "parameters" =
        some (jsObj
          [("workflow_type", jsValToJson i.workflow_type),
           ("gender_0", jsValToJson i.gender_0),
           ("upscale", some (.bool i.upscale))])) := by
  revert hcall
  unfold faceSwapHandler
  repeat' split
  all_goals intro hcall
  all_goals simp only [Option.some.injEq, reduceCtorEq] at hcall
  all_goals
    (subst hcall
     refine ⟨?_, ?_, ?_, ?_⟩
     · cases req.upscale <;> simp [jsStrictEq]
     · intro hg
       simp [hg, jsOr, jsTruthy]
     · intro hw
       simp [hw, jsOr, jsTruthy]
     · intro h200
       simp at h200 <;>
         simp [bodyLookup, jsObj, Json.lookup, List.find?, List.filterMap])

theorem c10_faceswap_option_coercion_witness :
    (swapFalInput.upscale = true ↔
      (plainSwapRequest.upscale = .str "true" ∨
       plainSwapRequest.upscale = .bool true)) ∧
    (plainSwapRequest.gender_0 = .undefined →
      swapFalInput.gender_0 = .str "male") ∧
    (plainSwapRequest.workflow_type = .undefined →
      swapFalInput.workflow_type = .str "user_hair") ∧
    ((faceSwapHandler plainSwapRequest [] okSwapWorld).response.status = 200 →
      bodyLookup (faceSwapHandler plainSwapRequest [] okSwapWorld).response
        "parameters" =
        some (jsObj
          [("workflow_type", jsValToJson swapFalInput.workflow_type),
           ("gender_0", jsValToJson swapFalInput.gender_0),
           ("upscale", some (.bool swapFalInput.upscale))])) :=
  c10_faceswap_option_coercion plainSwapRequest [] okSwapWorld swapFalInput
    (by rfl)
